import Mathlib

/-!
Verification of the video-forensics backend (`backend.py`, `detector.py`).

The Python source is shallowly embedded: pure scoring code becomes Lean
functions over exact rationals, fallible external calls (web search, the
reasoning engine, video upload) become explicit oracle arguments returning
`Except`/outcome values, and Python exceptions become `Except.error`.
Python `float` arithmetic is modelled as exact rational arithmetic and
Python's `round` (round-half-to-even on the exact value) as `pyRound`.
Python dictionaries with optional keys become structures with `Option`
fields (`none` = key absent or `null`).

backend.py calls `debug(...)` at lines 93 and 299, but no `debug` is ever
defined or imported there, so those call sites raise `NameError` at run
time; the embedding models this faithfully (see `nameErrorDebug`,
`with_retries`, `gemini_json`).
-/

namespace VideoForensics

/-! ### Python-style rounding and helpers -/

/-- Outcome of one call of the wrapped function: a return value, a
non-retriable `TypeError`, or any other (transient) exception. -/
inductive PyOutcome (α : Type) where
  | ok : α → PyOutcome α
  | typeError : String → PyOutcome α
  | exc : String → PyOutcome α
  deriving DecidableEq

/-- Result of `with_retries`: a returned value or a raised exception. -/
inductive RetryResult (α : Type) where
  | ok : α → RetryResult α
  | raised : String → RetryResult α
  deriving DecidableEq

/-- The error raised by calling the undefined name `debug`: backend.py
defines no `debug` function and imports none, so each `debug(...)` call
site raises this `NameError`. -/
def nameErrorDebug : String := "NameError: name 'debug' is not defined"

/-- `with_retries(fn, retries, base_sleep)` (backend.py lines 82-95).
`fn n` is the outcome of the n-th call (1-based).  The `except Exception`
handler computes the backoff and logs, then calls `debug(...)` at line 93
— an undefined name — so on the first transient failure the handler
raises `NameError` before reaching `time.sleep`: no sleep happens and no
further attempt is made, which makes the final `"Failed after retries"`
error reachable only when `retries = 0` and the loop body never runs
(`last_err` still `None`).  A `TypeError` re-raises immediately; a
first-attempt success returns.  The second component records the
`time.sleep` durations that actually happen (provably none). -/
def with_retries (fn : Nat → PyOutcome α) (retries : Nat) (base_sleep : ℚ) :
    RetryResult α × List ℚ :=
  match retries, base_sleep with
  | 0, _ => (.raised ("Failed after retries: " ++ "None"), [])
  | _ + 1, _ =>
    match fn 1 with
    | .ok a => (.ok a, [])
    | .typeError m => (.raised m, [])
    | .exc _ => (.raised nameErrorDebug, [])

/-! ### String utilities shared by the JSON extraction paths -/

/-- The brace characters, named to keep source text plain. -/
def lbrace : Char := Char.ofNat 123

def rbrace : Char := Char.ofNat 125

/-- Whitespace stripped by Python's `str.strip()` (ASCII subset). -/
def isPyWs (c : Char) : Bool :=
  c = ' ' || c = '\t' || c = '\n' || c = '\r' || c = '\x0b' || c = '\x0c'

/-- `text.strip()`. -/
def pyStrip (l : List Char) : List Char :=
  ((l.dropWhile isPyWs).reverse.dropWhile isPyWs).reverse

/-- Split at the first occurrence of `sep`: text before it and text after it,
`none` when `sep` does not occur. -/
def splitFirst (sep : List Char) : List Char → Option (List Char × List Char)
  | [] => if sep = [] then some ([], []) else none
  | c :: cs =>
    if sep.isPrefixOf (c :: cs) then some ([], (c :: cs).drop sep.length)
    else match splitFirst sep cs with
      | some (pre, post) => some (c :: pre, post)
      | none => none

/-- Python's `pat in text`. -/
def containsSub (pat l : List Char) : Bool := (splitFirst pat l).isSome

/-- Python's `text.replace(pat, "", 1)`. -/
def removeFirst (pat l : List Char) : List Char :=
  match splitFirst pat l with
  | some (pre, post) => pre ++ post
  | none => l

/-- The code-fence marker. -/
def fence : List Char := "```".data

/-- `text.strip()` followed by the fence handling that appears in
`gemini_json` (unreachably, see below) and inline in `check_video_synthid`:
if the marker occurs, take the part between the first and second markers
(or everything after the first when it occurs only once), drop the first
occurrence of "json", and strip again. -/
def stripFences (raw : List Char) : List Char :=
  let text := pyStrip raw
  match splitFirst fence text with
  | none => text
  | some (_, rest) =>
    let part1 := match splitFirst fence rest with
      | none => rest
      | some (p, _) => p
    pyStrip (removeFirst "json".data part1)

/-- Index of the first occurrence of a character, Python's `str.find`. -/
def pyFind (c : Char) : List Char → Option Nat
  | [] => none
  | d :: ds => if d = c then some 0 else (pyFind c ds).map (· + 1)

/-- Index of the last occurrence of a character, Python's `str.rfind`. -/
def pyRFind (c : Char) (l : List Char) : Option Nat :=
  match pyFind c l.reverse with
  | some k => some (l.length - 1 - k)
  | none => none

/-- `start, end = text.find(lbrace), text.rfind(rbrace)`; the slice
`text[start : end + 1]` when both are found and `end > start`. -/
def braceSlice (t : List Char) : Option (List Char) :=
  match pyFind lbrace t, pyRFind rbrace t with
  | some s, some e => if s < e then some ((t.drop s).take (e + 1 - s)) else none
  | _, _ => none

/-! ### A model of `json.loads`

JSON values; numbers are modelled as integers (the backend's scores and
counts are integral), strings as character lists. -/

inductive Json : Type where
  | null : Json
  | bool : Bool → Json
  | num : Int → Json
  | str : List Char → Json
  | arr : List Json → Json
  | obj : List (List Char × Json) → Json

/-- JSON whitespace accepted by `json.loads`. -/
def isJsonWs (c : Char) : Bool := c = ' ' || c = '\t' || c = '\n' || c = '\r'

def skipJsonWs : List Char → List Char
  | [] => []
  | c :: cs => if isJsonWs c then skipJsonWs cs else c :: cs

/-- Body of a JSON string after the opening quote; handles the common
escapes and stops at the closing quote. -/
def parseStringBody : List Char → Option (List Char × List Char)
  | [] => none
  | '\\' :: e :: rest =>
    (match e with
     | '"' => some '"'
     | '\\' => some '\\'
     | '/' => some '/'
     | 'n' => some '\n'
     | 't' => some '\t'
     | 'r' => some '\r'
     | _ => none).bind fun c =>
      (parseStringBody rest).map fun pr : List Char × List Char => (c :: pr.1, pr.2)
  | '\\' :: [] => none
  | c :: rest =>
    if c = '"' then some ([], rest)
    else (parseStringBody rest).map fun pr => (c :: pr.1, pr.2)

/-- Digits to an integer value. -/
def digitsVal (ds : List Char) : Int :=
  ds.foldl (fun acc d => acc * 10 + (d.toNat - 48 : Nat)) 0

/-- An integer JSON number: optional minus sign then a nonempty digit run. -/
def parseIntNum (l : List Char) : Option (Int × List Char) :=
  match l with
  | '-' :: rest =>
    let p := rest.span (·.isDigit)
    if p.1 = [] then none else some (-(digitsVal p.1), p.2)
  | _ =>
    let p := l.span (·.isDigit)
    if p.1 = [] then none else some (digitsVal p.1, p.2)

/-- Members of a JSON object after the opening brace, given a value
recogniser `pv` for the element values; fuel bounds the member count. -/
def parseMembersF (pv : List Char → Option (Json × List Char)) :
    Nat → List Char → Option (List (List Char × Json) × List Char)
  | 0, _ => none
  | fuel + 1, l =>
    match skipJsonWs l with
    | '"' :: rest =>
      (parseStringBody rest).bind fun kr =>
        match skipJsonWs kr.2 with
        | ':' :: vrest =>
          (pv vrest).bind fun vr =>
            match skipJsonWs vr.2 with
            | ',' :: more =>
              (parseMembersF pv fuel more).map fun mr =>
                ((kr.1, vr.1) :: mr.1, mr.2)
            | d :: more =>
              if d = rbrace then some ([(kr.1, vr.1)], more) else none
            | [] => none
        | _ => none
    | _ => none

/-- Elements of a JSON array after the opening bracket, given a value
recogniser `pv`; fuel bounds the element count. -/
def parseElemsF (pv : List Char → Option (Json × List Char)) :
    Nat → List Char → Option (List Json × List Char)
  | 0, _ => none
  | fuel + 1, l =>
    (pv l).bind fun vr =>
      match skipJsonWs vr.2 with
      | ',' :: more =>
        (parseElemsF pv fuel more).map fun er => (vr.1 :: er.1, er.2)
      | ']' :: more => some ([vr.1], more)
      | _ => none

/-- A JSON value; fuel bounds the nesting depth and the sizes of composite
values. -/
def parseVal : Nat → List Char → Option (Json × List Char)
  | 0, _ => none
  | fuel + 1, l =>
    match skipJsonWs l with
    | [] => none
    | c :: cs =>
      if c = lbrace then
        match skipJsonWs cs with
        | d :: more =>
          if d = rbrace then some (.obj [], more)
          else
            (parseMembersF (parseVal fuel) (fuel + 1) cs).map fun mr =>
              (.obj mr.1, mr.2)
        | [] => none
      else if c = '[' then
        match skipJsonWs cs with
        | ']' :: more => some (.arr [], more)
        | _ =>
          (parseElemsF (parseVal fuel) (fuel + 1) cs).map fun er =>
            (.arr er.1, er.2)
      else if c = '"' then
        (parseStringBody cs).map fun sr => (.str sr.1, sr.2)
      else if "true".data.isPrefixOf (c :: cs) then some (.bool true, (c :: cs).drop 4)
      else if "false".data.isPrefixOf (c :: cs) then some (.bool false, (c :: cs).drop 5)
      else if "null".data.isPrefixOf (c :: cs) then some (.null, (c :: cs).drop 4)
      else
        (parseIntNum (c :: cs)).map fun nr => (.num nr.1, nr.2)

/-- `json.loads`: one JSON value with only whitespace around it. -/
def jsonLoads (l : List Char) : Option Json :=
  match parseVal (l.length + 1) l with
  | some (j, rest) => if skipJsonWs rest = [] then some j else none
  | none => none

/-- Key lookup in a parsed JSON object, Python's `dict[key]` shape. -/
def jsonGet (j : Json) (key : String) : Option Json :=
  match j with
  | .obj kvs => (kvs.find? (fun kv => kv.1 == key.data)).map (·.2)
  | _ => none

/-! ### The shared JSON extraction (`gemini_json`, backend.py lines 298-314) -/

/-- `gemini_json` (backend.py lines 298-314).  Its first statement calls
`debug(...)` at line 299 — an undefined name — so every call raises
`NameError` before the model is even queried: the fence stripping, brace
slicing and `json.loads` in the rest of the function are unreachable, it
never returns a parsed object, and its documented
`ValueError` ("Gemini did not return valid JSON.") is never raised.
(`check_video_synthid` reaches the same extraction logic through its own
inline copy, modelled with `stripFences`, `braceSlice` and `jsonLoads`.) -/
def gemini_json : String → Except String Json :=
  fun _ => .error nameErrorDebug

/-! ### Web evidence retrieval and trimming (backend.py lines 356-380) -/

def WEB_CONTENT_TRIM_CHARS : Nat := 3500

/-- One Tavily result dict (the fields the backend touches). -/
structure SearchItem where
  url : String
  title : String
  content : Option String
  deriving DecidableEq

/-- Python's `x or default` for an optional string (empty string is falsy). -/
def pyOrStr (o : Option String) (d : String) : String :=
  match o with
  | some s => if s = "" then d else s
  | none => d

/-- The per-result trim in `web_evidence_for_claim`: contents longer than
the cap are cut to the cap (Python slicing `content[:cap]`, modelled on the
character list) and suffixed with an ellipsis; everything else in the dict
is `dict(r)`-copied unchanged. -/
def trimResult (r : SearchItem) : SearchItem :=
  let content := pyOrStr r.content ""
  if WEB_CONTENT_TRIM_CHARS < content.length then
    { r with content := some (String.mk (content.data.take WEB_CONTENT_TRIM_CHARS) ++ "...") }
  else r

/-- `web_evidence_for_claim`: the Tavily search for one claim behind
`with_retries(_search, retries=3, base_sleep=1.0)`, then the content trim.
`fn n` is the n-th search attempt's outcome (the `results` list of the
response); the dict wrapper around the returned list is elided. -/
def web_evidence_for_claim (fn : Nat → PyOutcome (List SearchItem)) :
    Except String (List SearchItem) :=
  match with_retries fn 3 1 with
  | (.ok res, _) => .ok (res.map trimResult)
  | (.raised e, _) => .error e

/-! ### Fact-checking all claims (`gemini_factcheck`, backend.py 411-450) -/

/-- One claim dict from the structured content. -/
structure ClaimItem where
  claim : Option String
  claim_source : Option String
  deriving DecidableEq

/-- The structured content: `structured.get("claims", [])`. -/
structure Structured where
  claims : Option (List ClaimItem)
  deriving DecidableEq

/-- A citation dict in a claim verdict. -/
structure Citation where
  url : String
  supporting_text : String
  deriving DecidableEq

/-- The claim-verdict dict produced by the reasoning call; `none` marks a
key the model left out. -/
structure FCVerdict where
  claim : Option String
  claim_source : Option String
  verdict : Option String
  confidence : Option Int
  correct_information : Option String
  explanation : Option String
  citations : Option (List Citation)
  deriving DecidableEq

/-- `(c.get("claim") or "").strip()`. -/
def effClaim (c : ClaimItem) : String := String.mk (pyStrip (pyOrStr c.claim "").data)

/-- `(c.get("claim_source") or "video").strip()`. -/
def effSource (c : ClaimItem) : String := String.mk (pyStrip (pyOrStr c.claim_source "video").data)

/-- The `verdict.setdefault(...)` block of `gemini_factcheck`. -/
def setDefaults (claim claim_source : String) (v : FCVerdict) : FCVerdict :=
  { claim := some (v.claim.getD claim)
    claim_source := some (v.claim_source.getD claim_source)
    verdict := some (v.verdict.getD "unclear")
    confidence := some (v.confidence.getD 0)
    correct_information := some (v.correct_information.getD "")
    explanation := some (v.explanation.getD "")
    citations := some (v.citations.getD []) }

/-- The verdict emitted when the web search found nothing. -/
def fallbackVerdict (claim claim_source : String) : FCVerdict :=
  { claim := some claim
    claim_source := some claim_source
    verdict := some "unclear"
    confidence := some 0
    correct_information := some ""
    explanation := some "No web sources found for this claim."
    citations := some [] }

/-- `gemini_factcheck_one_claim` (backend.py lines 383-408): builds a
prompt and delegates to `gemini_json`, which always raises `NameError`
(undefined `debug` at line 299), so this call never returns a verdict. -/
def gemini_factcheck_one_claim : String → String → List SearchItem → Except String FCVerdict :=
  fun _ _ _ => .error nameErrorDebug

/-- The per-claim loop of `gemini_factcheck`.  `search claim n` is the n-th
search attempt for that claim.  Zero search results append the fallback
verdict and continue; non-empty results reach `gemini_factcheck_one_claim`,
whose `NameError` propagates and aborts the loop, making the `setdefault`
branch (backend.py lines 439-448, kept below for fidelity) dead code.  The
second component of a successful result records, in order, the claims for
which the reasoning call returned a verdict — provably none. -/
def factcheckLoop (search : String → Nat → PyOutcome (List SearchItem)) :
    List ClaimItem → Except String (List FCVerdict × List String)
  | [] => .ok ([], [])
  | c :: cs =>
    let claim := effClaim c
    let claim_source := effSource c
    if claim = "" then factcheckLoop search cs
    else
      match web_evidence_for_claim (search claim) with
      | .error e => .error e
      | .ok results =>
        if results.isEmpty then
          match factcheckLoop search cs with
          | .error e => .error e
          | .ok (rest, log) => .ok (fallbackVerdict claim claim_source :: rest, log)
        else
          match gemini_factcheck_one_claim claim claim_source results with
          | .error e => .error e
          | .ok v =>
            match factcheckLoop search cs with
            | .error e => .error e
            | .ok (rest, log) =>
              .ok (setDefaults claim claim_source v :: rest, claim :: log)

/-- `gemini_factcheck(structured)`: fact-check every claim in order. -/
def gemini_factcheck (search : String → Nat → PyOutcome (List SearchItem))
    (structured : Structured) : Except String (List FCVerdict × List String) :=
  factcheckLoop search (structured.claims.getD [])

/-- The claims with non-empty stripped claim text: exactly those the loop
does not `continue` past. -/
def nonemptyClaims (structured : Structured) : List ClaimItem :=
  (structured.claims.getD []).filter (fun c => effClaim c ≠ "")

/-! ### AI-generation detector fallback (`check_video_synthid`, 171-229) -/

/-- The neutral result dict. -/
def neutralSynthid (note : String) : Json :=
  Json.obj [("is_ai".data, Json.bool false), ("trust_score".data, Json.num 50),
    ("confidence".data, Json.num 50), ("note".data, Json.str note.data)]

/-- `check_video_synthid` with its external effects as oracles: `upload`
is the Gemini file upload, `finalState` the terminal state the processing
poll loop observes, `generate` the multimodal model call returning raw
text.  The whole body runs under `try/except`, every raised error becoming
the neutral result with an `Error:` note; an un-sliceable response returns
the neutral result directly. -/
def check_video_synthid (upload : Except String Unit) (finalState : String)
    (generate : Except String String) : Json :=
  let body : Except String Json :=
    match upload with
    | .error e => .error e
    | .ok _ =>
      if finalState = "FAILED" then .error ("Video upload failed: " ++ finalState)
      else
        match generate with
        | .error e => .error e
        | .ok text =>
          match braceSlice (stripFences text.data) with
          | some raw =>
            match jsonLoads raw with
            | some j => .ok j
            | none => .error "Expecting value"
          | none => .ok (neutralSynthid "Unable to parse response")
  match body with
  | .ok j => j
  | .error e => neutralSynthid ("Error: " ++ e)

/-! ### Standalone detector (`detector.py`) -/

/-- `str(...)` of a Python dict whose keys and values are modelled as
strings. -/
def pyStrDict (m : List (String × String)) : String :=
  "\x7b" ++ String.intercalate ", "
    (m.map (fun kv => "'" ++ kv.1 ++ "': '" ++ kv.2 ++ "'")) ++ "\x7d"

def strLower (s : String) : String := String.mk (s.data.map Char.toLower)

/-- `is_metadata_real` (detector.py lines 25-41): `metadata` is the dict
from `get_video_metadata`, `none` when extraction failed. -/
def is_metadata_real (metadata : Option (List (String × String))) : Bool :=
  match metadata with
  | none => false
  | some m =>
    if m.isEmpty then false
    else
      let sm := strLower (pyStrDict m)
      containsSub "device".data sm.data || containsSub "camera".data sm.data ||
        containsSub "recording".data sm.data

/-- The result dict of `detect_ai_video`; the always-`None` TwelveLabs
placeholder field is omitted. -/
structure DetectionResult where
  is_ai : Bool
  reason : String
  metadata : Option (List (String × String))
  deriving DecidableEq

/-- `detect_ai_video` (detector.py lines 60-91) as a function of the
extracted metadata. -/
def detect_ai_video (metadata : Option (List (String × String))) : DetectionResult :=
  if is_metadata_real metadata then
    { is_ai := false, reason := "Metadata proves authenticity", metadata := metadata }
  else
    { is_ai := true, reason := "Could not verify authenticity", metadata := metadata }

/-! ### Concrete instances used to exercise the theorems below -/

/-- A call that fails transiently on the first attempt and would succeed
on any later one. -/
def fnSucceedsAfterOne : Nat → PyOutcome Nat :=
  fun n => if n = 1 then .exc "transient glitch" else .ok 7

/-- A call that raises a non-retriable `TypeError`. -/
def fnTypeErr : Nat → PyOutcome Nat := fun _ => .typeError "bad argument"

/-- A call that succeeds immediately. -/
def fnOkW : Nat → PyOutcome Nat := fun _ => .ok 7


/-- Structured content for the C5 witness: two checkable claims and one
whitespace-only claim that the loop skips. -/
def structW5 : Structured :=
  ⟨some [⟨some "Claim A", some "video"⟩, ⟨some "  ", none⟩, ⟨some "Claim B", none⟩]⟩

/-- Search oracle whose first attempt succeeds with zero results. -/
def searchZeroW : String → Nat → PyOutcome (List SearchItem) := fun _ _ => .ok []

/-- Search oracle whose first attempt succeeds with one result. -/
def searchOneW : String → Nat → PyOutcome (List SearchItem) :=
  fun _ _ => .ok [⟨"http://s.com", "S", some "text"⟩]

/-- Search oracle that raises a non-retriable error on its attempt. -/
def searchRaiseW : String → Nat → PyOutcome (List SearchItem) :=
  fun _ _ => .typeError "tavily misuse"

/-- A single concrete claim. -/
def claimItemW : ClaimItem := ⟨some "Water boils at 90 C", some "caption"⟩

/-- Input for the C3 counterexample: the search succeeds with one result,
so the loop reaches the reasoning call, which raises. -/
def searchCx : String → Nat → PyOutcome (List SearchItem) :=
  fun _ _ => .ok [⟨"http://n.com", "news", some "article body"⟩]

def structCx : Structured := ⟨some [⟨some "The bridge collapsed in 2019", some "caption"⟩]⟩


/-- A content string one character over the trim cap. -/
def longContent : String := String.mk (List.replicate 3501 'a')

/-- A search result whose content exceeds the trim cap. -/
def longItem : SearchItem := ⟨"http://long.com", "Long", some longContent⟩

/-- Search oracle returning the over-cap result. -/
def searchLongW : String → Nat → PyOutcome (List SearchItem) :=
  fun _ _ => .ok [longItem]


/-- The embedded JSON object of the C4 counterexample. -/
def objCx4 : String := "\x7b\"a\": 1\x7d"

/-- Raw model text wrapping `objCx4` in prose that contains a code fence. -/
def rawCx4 : String := "see ``` tips ``` " ++ objCx4


end VideoForensics

namespace VideoForensics

/-! ## Helper lemmas -/

theorem with_retries_sleeps {α : Type} (fn : Nat → PyOutcome α) (retries : Nat) (base : ℚ) :
    (with_retries fn retries base).2 = [] := by
  cases retries with
  | zero => rfl
  | succ r => cases hf : fn 1 <;> simp [with_retries, hf]

/-! ## Claims about the final scoring -/

/-- C6: the claim describes sleep-then-retry behavior the code cannot
exhibit.  The `except` handler calls the undefined name `debug`
(backend.py line 93) before `time.sleep`, so the first transient failure
raises `NameError` with no sleep and no further attempt — even when a
later attempt would succeed — and exhaustion never surfaces the
"Failed after retries" error.  Of the claim, only the `TypeError`
conjunct holds of the code: a non-retriable error re-raises immediately
without sleeping; a first-attempt success returns the value. -/
theorem claim_C6 :
    (∀ (α : Type) (fn : Nat → PyOutcome α) (m : String) (base : ℚ) (retries : ℕ),
      0 < retries → fn 1 = .exc m →
      with_retries fn retries base = (.raised nameErrorDebug, [])) ∧
    (∀ (α : Type) (fn : Nat → PyOutcome α) (m : String) (base : ℚ) (retries : ℕ),
      0 < retries → fn 1 = .typeError m →
      with_retries fn retries base = (.raised m, [])) ∧
    (∀ (α : Type) (fn : Nat → PyOutcome α) (v : α) (base : ℚ) (retries : ℕ),
      0 < retries → fn 1 = .ok v →
      with_retries fn retries base = (.ok v, [])) := by
  refine ⟨?_, ?_, ?_⟩
  · intro α fn m base retries hr hfn
    obtain ⟨r, rfl⟩ : ∃ r, retries = r + 1 := ⟨retries - 1, by omega⟩
    simp [with_retries, hfn]
  · intro α fn m base retries hr hfn
    obtain ⟨r, rfl⟩ : ∃ r, retries = r + 1 := ⟨retries - 1, by omega⟩
    simp [with_retries, hfn]
  · intro α fn v base retries hr hfn
    obtain ⟨r, rfl⟩ : ∃ r, retries = r + 1 := ⟨retries - 1, by omega⟩
    simp [with_retries, hfn]

/-- Witness for C6: the failing input (one transient failure, then a call
that would succeed) raises the `NameError` with zero sleeps; a `TypeError`
re-raises at once; an immediate success returns. -/
theorem claim_C6_witness :
    with_retries fnSucceedsAfterOne 4 (3/2 : ℚ) = (.raised nameErrorDebug, []) ∧
    with_retries fnTypeErr 4 (3/2 : ℚ) = (.raised "bad argument", []) ∧
    with_retries fnOkW 4 (3/2 : ℚ) = (.ok 7, []) :=
  ⟨claim_C6.1 Nat fnSucceedsAfterOne "transient glitch" (3/2) 4 (by norm_num) rfl,
   claim_C6.2.1 Nat fnTypeErr "bad argument" (3/2) 4 (by norm_num) rfl,
   claim_C6.2.2 Nat fnOkW 7 (3/2) 4 (by norm_num) rfl⟩

end VideoForensics

namespace VideoForensics

/-! ## Claims about the fact-check loop -/

theorem factcheckLoop_spec (search : String → Nat → PyOutcome (List SearchItem)) :
    ∀ (cs : List ClaimItem) (out : List FCVerdict) (log : List String),
    factcheckLoop search cs = .ok (out, log) →
    out.length = (cs.filter (fun c => effClaim c ≠ "")).length ∧
    List.Forall₂ (fun c v => v = fallbackVerdict (effClaim c) (effSource c) ∧
      with_retries (search (effClaim c)) 3 1 = (RetryResult.ok ([] : List SearchItem), []))
      (cs.filter (fun c => effClaim c ≠ "")) out ∧
    log = [] := by
  intro cs
  induction cs with
  | nil =>
    intro out log h
    simp only [factcheckLoop, Except.ok.injEq, Prod.mk.injEq] at h
    obtain ⟨h1, h2⟩ := h
    subst h1
    subst h2
    simp
  | cons c cs ih =>
    intro out log h
    simp only [factcheckLoop] at h
    by_cases hne : effClaim c = ""
    · rw [if_pos hne] at h
      have hrec := ih out log h
      have hfc : List.filter (fun c => decide (effClaim c ≠ "")) (c :: cs) =
          List.filter (fun c => decide (effClaim c ≠ "")) cs := by
        simp [List.filter_cons, hne]
      rw [hfc]
      exact hrec
    · rw [if_neg hne] at h
      have hfc : List.filter (fun c => decide (effClaim c ≠ "")) (c :: cs) =
          c :: List.filter (fun c => decide (effClaim c ≠ "")) cs := by
        simp [List.filter_cons, hne]
      rcases hwr : with_retries (search (effClaim c)) 3 1 with ⟨r1, sl⟩
      have hsl : sl = [] := by
        have h0 := with_retries_sleeps (search (effClaim c)) 3 1
        rw [hwr] at h0
        exact h0
      subst hsl
      rw [web_evidence_for_claim, hwr] at h
      cases r1 with
      | raised e => simp at h
      | ok rs =>
        simp only at h
        by_cases hrs : rs = []
        · subst hrs
          simp only [List.map_nil, List.isEmpty_nil, if_true] at h
          rcases hrec : factcheckLoop search cs with e | p
          · rw [hrec] at h
            simp at h
          · obtain ⟨rest, log'⟩ := p
            rw [hrec] at h
            simp only [Except.ok.injEq, Prod.mk.injEq] at h
            obtain ⟨h1, h2⟩ := h
            subst h1
            subst h2
            obtain ⟨ihlen, ihfa, ihlog⟩ := ih rest log' hrec
            refine ⟨?_, ?_, ihlog⟩
            · rw [hfc]
              simp [List.length_cons, ihlen]
            · rw [hfc]
              exact List.Forall₂.cons ⟨rfl, hwr⟩ ihfa
        · have hmap : (rs.map trimResult).isEmpty = false := by
            cases rs with
            | nil => exact absurd rfl hrs
            | cons a as => rfl
          rw [hmap] at h
          simp only [Bool.false_eq_true, if_false] at h
          simp [gemini_factcheck_one_claim] at h

/-- C5: whenever `gemini_factcheck` returns, its results list has exactly
one verdict per non-empty claim, in claim order; every returned verdict is
the zero-results fallback (unclear, confidence 0, empty correction and
citations), produced from a first-attempt search that returned no results,
and the reasoning log is empty — for a zero-results claim the reasoning
stage is not invoked at all, and a claim with results aborts the run
before anything is returned. -/
theorem claim_C5 (search : String → Nat → PyOutcome (List SearchItem))
    (structured : Structured) (out : List FCVerdict) (log : List String)
    (h : gemini_factcheck search structured = .ok (out, log)) :
    out.length = (nonemptyClaims structured).length ∧
    List.Forall₂ (fun c v => v = fallbackVerdict (effClaim c) (effSource c) ∧
      with_retries (search (effClaim c)) 3 1 = (RetryResult.ok ([] : List SearchItem), []))
      (nonemptyClaims structured) out ∧
    log = [] :=
  factcheckLoop_spec search (structured.claims.getD []) out log h

/-- Witness for C5: a run whose two checkable claims both get zero search
results; the whitespace-only claim in between is skipped. -/
theorem claim_C5_witness :
    [fallbackVerdict "Claim A" "video", fallbackVerdict "Claim B" "video"].length
      = (nonemptyClaims structW5).length ∧
    List.Forall₂ (fun c v => v = fallbackVerdict (effClaim c) (effSource c) ∧
      with_retries (searchZeroW (effClaim c)) 3 1 = (RetryResult.ok ([] : List SearchItem), []))
      (nonemptyClaims structW5)
      [fallbackVerdict "Claim A" "video", fallbackVerdict "Claim B" "video"] ∧
    ([] : List String) = [] :=
  claim_C5 searchZeroW structW5
    [fallbackVerdict "Claim A" "video", fallbackVerdict "Claim B" "video"] [] rfl

/-- C3 counterexample: one claim whose web search succeeds with a result;
fact-checking that single claim fails — the reasoning call raises
`NameError` (the undefined `debug` inside `gemini_json`) — and the
pipeline aborts with that error instead of degrading the claim to an
unclear verdict, so the one non-empty claim yields no verdict at all. -/
theorem claim_C3_counterexample :
    gemini_factcheck searchCx structCx = .error nameErrorDebug ∧
    (nonemptyClaims structCx).length = 1 := ⟨rfl, rfl⟩

/-- C3 as amended: only a claim whose search immediately returns zero
results degrades to the unclear/confidence-0 fallback (with an
explanatory note) and the run continues; a claim with non-empty search
results reaches the reasoning call, which raises `NameError` (undefined
`debug` at backend.py line 299) and aborts the whole run; a raised search
(a transient error raises `NameError` from the retry handler before any
retry, a `TypeError` re-raises) likewise aborts. -/
theorem claim_C3 :
    (∀ (search : String → Nat → PyOutcome (List SearchItem))
      (c : ClaimItem) (cs : List ClaimItem) (rest : List FCVerdict)
      (log : List String) (sl : List ℚ),
      effClaim c ≠ "" →
      with_retries (search (effClaim c)) 3 1 = (RetryResult.ok ([] : List SearchItem), sl) →
      factcheckLoop search cs = .ok (rest, log) →
      factcheckLoop search (c :: cs) =
        .ok (fallbackVerdict (effClaim c) (effSource c) :: rest, log)) ∧
    (∀ (search : String → Nat → PyOutcome (List SearchItem))
      (c : ClaimItem) (cs : List ClaimItem) (rs : List SearchItem) (sl : List ℚ),
      effClaim c ≠ "" →
      with_retries (search (effClaim c)) 3 1 = (RetryResult.ok rs, sl) → rs ≠ [] →
      factcheckLoop search (c :: cs) = .error nameErrorDebug) ∧
    (∀ (search : String → Nat → PyOutcome (List SearchItem))
      (c : ClaimItem) (cs : List ClaimItem) (sl : List ℚ) (e : String),
      effClaim c ≠ "" →
      with_retries (search (effClaim c)) 3 1 = (RetryResult.raised e, sl) →
      factcheckLoop search (c :: cs) = .error e) := by
  refine ⟨?_, ?_, ?_⟩
  · intro search c cs rest log sl hne hwr hrec
    simp only [factcheckLoop]
    rw [if_neg hne, web_evidence_for_claim, hwr]
    simp only [List.map_nil, List.isEmpty_nil, if_true]
    rw [hrec]
  · intro search c cs rs sl hne hwr hrs
    simp only [factcheckLoop]
    rw [if_neg hne, web_evidence_for_claim, hwr]
    have hmap : (rs.map trimResult).isEmpty = false := by
      cases rs with
      | nil => exact absurd rfl hrs
      | cons a as => rfl
    simp only [hmap, Bool.false_eq_true, if_false]
    rfl
  · intro search c cs sl e hne hwr
    simp only [factcheckLoop]
    rw [if_neg hne, web_evidence_for_claim, hwr]

/-- Witness for the amended C3 at concrete input: zero results degrade
and continue, non-empty results abort via the reasoning `NameError`, a
raised search aborts. -/
theorem claim_C3_witness :
    factcheckLoop searchZeroW [claimItemW] =
      .ok ([fallbackVerdict "Water boils at 90 C" "caption"], []) ∧
    factcheckLoop searchOneW [claimItemW] = .error nameErrorDebug ∧
    factcheckLoop searchRaiseW [claimItemW] = .error "tavily misuse" :=
  ⟨claim_C3.1 searchZeroW claimItemW [] [] [] [] (by decide) rfl rfl,
   claim_C3.2.1 searchOneW claimItemW [] [⟨"http://s.com", "S", some "text"⟩] []
     (by decide) rfl (by decide),
   claim_C3.2.2 searchRaiseW claimItemW [] [] "tavily misuse" (by decide) rfl⟩

end VideoForensics

namespace VideoForensics

theorem pyOrStr_empty (o : Option String) : pyOrStr o "" = o.getD "" := by
  cases o with
  | none => rfl
  | some s =>
    by_cases hs : s = ""
    · simp [pyOrStr, hs]
    · simp [pyOrStr, hs]

/-- C8 as amended: the trim in `web_evidence_for_claim` bounds each
content at the cap plus the three ellipsis characters (3503), and items
whose content is already within the cap pass through entirely unchanged. -/
theorem claim_C8 (fn : Nat → PyOutcome (List SearchItem)) (rs : List SearchItem) (sl : List ℚ)
    (h : with_retries fn 3 1 = (RetryResult.ok rs, sl)) :
    web_evidence_for_claim fn = .ok (rs.map trimResult) ∧
    ∀ r ∈ rs, ((trimResult r).content.getD "").length ≤ WEB_CONTENT_TRIM_CHARS + 3 ∧
      ((pyOrStr r.content "").length ≤ WEB_CONTENT_TRIM_CHARS → trimResult r = r) := by
  constructor
  · rw [web_evidence_for_claim, h]
  · intro r _
    constructor
    · by_cases hlen : WEB_CONTENT_TRIM_CHARS < (pyOrStr r.content "").length
      · rw [trimResult]
        simp only [hlen, if_true]
        simp only [Option.getD_some]
        have hl : (String.mk ((pyOrStr r.content "").data.take WEB_CONTENT_TRIM_CHARS) ++
            ("..." : String)).length =
            ((pyOrStr r.content "").data.take WEB_CONTENT_TRIM_CHARS).length + 3 := by
          rw [String.length_append]
          rfl
        rw [hl]
        have := List.length_take_le WEB_CONTENT_TRIM_CHARS (pyOrStr r.content "").data
        omega
      · rw [trimResult]
        simp only [hlen, if_false]
        rw [← pyOrStr_empty]
        omega
    · intro hle
      rw [trimResult]
      have : ¬ WEB_CONTENT_TRIM_CHARS < (pyOrStr r.content "").length := by omega
      simp only [this, if_false]

/-- C8 counterexample: for a 3501-character content the trimmed content
has 3503 characters, exceeding the cap the claim states. -/
theorem trimResult_over (r : SearchItem)
    (h : WEB_CONTENT_TRIM_CHARS < (pyOrStr r.content "").length) :
    trimResult r = ⟨r.url, r.title,
      some (String.mk ((pyOrStr r.content "").data.take WEB_CONTENT_TRIM_CHARS) ++ "...")⟩ := by
  rw [trimResult]
  rw [if_pos h]

/-- C8 counterexample: for a 3501-character content the trimmed content
has 3503 characters, exceeding the cap the claim states. -/
theorem claim_C8_counterexample :
    web_evidence_for_claim (searchLongW "any claim") = .ok [trimResult longItem] ∧
    ((trimResult longItem).content.getD "").length = WEB_CONTENT_TRIM_CHARS + 3 ∧
    ¬ ((trimResult longItem).content.getD "").length ≤ WEB_CONTENT_TRIM_CHARS := by
  have h1 : longContent.length = 3501 := by
    have h0 : longContent.length = (List.replicate 3501 'a').length := rfl
    rw [h0, List.length_replicate]
  have hne : longContent ≠ "" := by
    intro h
    have h0 := congrArg String.length h
    rw [h1] at h0
    simp at h0
  have h2 : pyOrStr longItem.content "" = longContent := by
    show pyOrStr (some longContent) "" = longContent
    simp only [pyOrStr]
    rw [if_neg hne]
  have hcond : WEB_CONTENT_TRIM_CHARS < (pyOrStr longItem.content "").length := by
    rw [h2, h1]
    decide
  have h3 : (trimResult longItem).content =
      some (String.mk (longContent.data.take WEB_CONTENT_TRIM_CHARS) ++ "...") := by
    rw [trimResult_over longItem hcond]
    rw [h2]
  have hdata : longContent.data = List.replicate 3501 'a' := rfl
  have h5 : (longContent.data.take WEB_CONTENT_TRIM_CHARS).length = 3500 := by
    rw [hdata, List.length_take, List.length_replicate]
    decide
  have h4 : ((trimResult longItem).content.getD "").length = 3503 := by
    rw [h3, Option.getD_some, String.length_append]
    have hmk : (String.mk (longContent.data.take WEB_CONTENT_TRIM_CHARS)).length =
        (longContent.data.take WEB_CONTENT_TRIM_CHARS).length := rfl
    rw [hmk, h5]
    decide
  refine ⟨rfl, ?_, ?_⟩
  · rw [h4]
    decide
  · rw [h4]
    decide

/-- Witness for C8 at a concrete search: one in-cap result passes through. -/
theorem claim_C8_witness :
    web_evidence_for_claim (searchOneW "q") =
      .ok ([⟨"http://s.com", "S", some "text"⟩].map trimResult) ∧
    ∀ r ∈ [(⟨"http://s.com", "S", some "text"⟩ : SearchItem)],
      ((trimResult r).content.getD "").length ≤ WEB_CONTENT_TRIM_CHARS + 3 ∧
      ((pyOrStr r.content "").length ≤ WEB_CONTENT_TRIM_CHARS → trimResult r = r) :=
  claim_C8 (searchOneW "q") [⟨"http://s.com", "S", some "text"⟩] [] rfl

end VideoForensics

namespace VideoForensics

/-- C9: every failure path of `check_video_synthid` returns the neutral
result (is_ai false, trust 50, confidence 50) with a note. -/
theorem claim_C9 :
    (∀ (e finalState : String) (generate : Except String String),
      check_video_synthid (.error e) finalState generate = neutralSynthid ("Error: " ++ e)) ∧
    (∀ generate : Except String String,
      check_video_synthid (.ok ()) "FAILED" generate =
        neutralSynthid ("Error: " ++ ("Video upload failed: " ++ "FAILED"))) ∧
    (∀ (s e : String), s ≠ "FAILED" →
      check_video_synthid (.ok ()) s (.error e) = neutralSynthid ("Error: " ++ e)) ∧
    (∀ (s t : String), s ≠ "FAILED" →
      braceSlice (stripFences t.data) = none →
      check_video_synthid (.ok ()) s (.ok t) = neutralSynthid "Unable to parse response") ∧
    (∀ (s t : String) (raw : List Char), s ≠ "FAILED" →
      braceSlice (stripFences t.data) = some raw → jsonLoads raw = none →
      check_video_synthid (.ok ()) s (.ok t) =
        neutralSynthid ("Error: " ++ "Expecting value")) ∧
    (∀ note : String,
      jsonGet (neutralSynthid note) "is_ai" = some (Json.bool false) ∧
      jsonGet (neutralSynthid note) "trust_score" = some (Json.num 50) ∧
      jsonGet (neutralSynthid note) "confidence" = some (Json.num 50) ∧
      jsonGet (neutralSynthid note) "note" = some (Json.str note.data)) := by
  refine ⟨?_, ?_, ?_, ?_, ?_, ?_⟩
  · intro e s g
    rfl
  · intro g
    rfl
  · intro s e hs
    simp [check_video_synthid, hs]
  · intro s t hs hbs
    simp [check_video_synthid, hs, hbs]
  · intro s t raw hs hbs hjl
    simp [check_video_synthid, hs, hbs, hjl]
  · intro note
    exact ⟨rfl, rfl, rfl, rfl⟩

/-- Witness for C9 at concrete oracle outcomes for each failure path. -/
theorem claim_C9_witness :
    check_video_synthid (.error "network down") "ACTIVE" (.ok "x") =
      neutralSynthid ("Error: " ++ "network down") ∧
    check_video_synthid (.ok ()) "FAILED" (.ok "x") =
      neutralSynthid ("Error: " ++ ("Video upload failed: " ++ "FAILED")) ∧
    check_video_synthid (.ok ()) "ACTIVE" (.error "model overloaded") =
      neutralSynthid ("Error: " ++ "model overloaded") ∧
    check_video_synthid (.ok ()) "ACTIVE" (.ok "no braces here") =
      neutralSynthid "Unable to parse response" ∧
    check_video_synthid (.ok ()) "ACTIVE" (.ok "\x7bnot json\x7d") =
      neutralSynthid ("Error: " ++ "Expecting value") :=
  ⟨claim_C9.1 "network down" "ACTIVE" (.ok "x"),
   claim_C9.2.1 (.ok "x"),
   claim_C9.2.2.1 "ACTIVE" "model overloaded" (by decide),
   claim_C9.2.2.2.1 "ACTIVE" "no braces here" (by decide) rfl,
   claim_C9.2.2.2.2.1 "ACTIVE" "\x7bnot json\x7d" "\x7bnot json\x7d".data (by decide) rfl rfl⟩

theorem pyStrDict_ne_empty (m : List (String × String)) : pyStrDict m ≠ "" := by
  intro h
  have h0 := congrArg String.length h
  rw [pyStrDict] at h0
  rw [String.length_append, String.length_append] at h0
  have h1 : ("\x7b" : String).length = 1 := rfl
  have h2 : ("\x7d" : String).length = 1 := rfl
  rw [h1, h2] at h0
  have h3 : ("" : String).length = 0 := rfl
  rw [h3] at h0
  omega

theorem is_metadata_real_iff (metadata : Option (List (String × String))) :
    is_metadata_real metadata = true ↔
    ∃ m, metadata = some m ∧ pyStrDict m ≠ "" ∧
      (containsSub "device".data (strLower (pyStrDict m)).data = true ∨
       containsSub "camera".data (strLower (pyStrDict m)).data = true ∨
       containsSub "recording".data (strLower (pyStrDict m)).data = true) := by
  cases metadata with
  | none =>
    simp [is_metadata_real]
  | some m =>
    cases m with
    | nil =>
      simp only [is_metadata_real, List.isEmpty_nil, if_true]
      constructor
      · intro h
        exact absurd h (by decide)
      · rintro ⟨m', hm', _, hc⟩
        have hm2 : m' = [] := (Option.some.inj hm').symm
        subst hm2
        rcases hc with h | h | h <;> exact absurd h (by decide)
    | cons kv tl =>
      have hne := pyStrDict_ne_empty (kv :: tl)
      simp only [is_metadata_real, List.isEmpty_cons, Bool.false_eq_true, if_false]
      constructor
      · intro h
        refine ⟨kv :: tl, rfl, hne, ?_⟩
        simp only [Bool.or_eq_true] at h
        tauto
      · rintro ⟨m', hm', _, hc⟩
        have hm2 : m' = kv :: tl := (Option.some.inj hm').symm
        subst hm2
        simp only [Bool.or_eq_true]
        tauto

/-- C10: `detect_ai_video` reports a real video (is_ai false, reason
"Metadata proves authenticity") exactly when metadata was extracted, its
stringified form is non-empty and its lowercase form contains one of
"device", "camera" or "recording"; in every other case, including failed
extraction, it defaults to AI-generated with reason
"Could not verify authenticity". -/
theorem claim_C10 (metadata : Option (List (String × String))) :
    (((detect_ai_video metadata).is_ai = false ∧
      (detect_ai_video metadata).reason = "Metadata proves authenticity") ↔
     (∃ m, metadata = some m ∧ pyStrDict m ≠ "" ∧
       (containsSub "device".data (strLower (pyStrDict m)).data = true ∨
        containsSub "camera".data (strLower (pyStrDict m)).data = true ∨
        containsSub "recording".data (strLower (pyStrDict m)).data = true))) ∧
    ((¬ ∃ m, metadata = some m ∧ pyStrDict m ≠ "" ∧
       (containsSub "device".data (strLower (pyStrDict m)).data = true ∨
        containsSub "camera".data (strLower (pyStrDict m)).data = true ∨
        containsSub "recording".data (strLower (pyStrDict m)).data = true)) →
      (detect_ai_video metadata).is_ai = true ∧
      (detect_ai_video metadata).reason = "Could not verify authenticity") := by
  have hiff := is_metadata_real_iff metadata
  by_cases hm : is_metadata_real metadata = true
  · constructor
    · constructor
      · intro _
        exact hiff.mp hm
      · intro _
        simp [detect_ai_video, hm]
    · intro hn
      exact absurd (hiff.mp hm) hn
  · have hm' : is_metadata_real metadata = false := by
      revert hm
      cases is_metadata_real metadata <;> simp
    constructor
    · constructor
      · intro hl
        simp [detect_ai_video, hm'] at hl
      · intro hr
        exact absurd (hiff.mpr hr) hm
    · intro _
      simp [detect_ai_video, hm']

end VideoForensics

namespace VideoForensics

/-! ## Claim about the shared JSON extraction -/

/-- C4: as amended — extraction never round-trips, because `gemini_json`
raises `NameError` (the undefined name `debug` at backend.py line 299) on
every call, before any fence stripping or brace slicing; it never returns
a value and never raises the documented ValueError, for any input. -/
theorem claim_C4 (raw : String) :
    gemini_json raw = .error nameErrorDebug ∧
    (∀ v : Json, gemini_json raw ≠ .ok v) ∧
    gemini_json raw ≠ .error "Gemini did not return valid JSON." := by
  refine ⟨rfl, ?_, ?_⟩
  · intro v hv
    simp [gemini_json] at hv
  · intro hv
    simp [gemini_json, nameErrorDebug] at hv

/-- C4 counterexample: raw text that wraps a valid JSON object in prose,
on which extraction nevertheless fails — with the `NameError`, not even
the documented ValueError. -/
theorem claim_C4_counterexample :
    rawCx4 = "see ``` tips ``` " ++ objCx4 ∧
    jsonLoads objCx4.data = some (Json.obj [("a".data, Json.num 1)]) ∧
    gemini_json rawCx4 = .error nameErrorDebug ∧
    nameErrorDebug ≠ "Gemini did not return valid JSON." :=
  ⟨rfl, rfl, rfl, by decide⟩

end VideoForensics
